import Mathlib

/-!
Verification of the ProStruct StateGraph pipeline (src/api/index.py).

The program is a two-stage LLM pipeline: an inspector node analyses an
image, a consultant node combines that analysis with the user's question,
and a FastAPI handler `analyze_project` exposes the pipeline over HTTP.
The LLM (`llm.invoke`) is modelled as an opaque oracle that either returns
content or raises; nodes, the linear graph, and the boundary handler are
translated directly from the source.
-/

namespace ProStruct

/-- The `GraphState` TypedDict (src/api/index.py lines 23-27). -/
structure GraphState where
  image_data : String
  user_prompt : String
  visual_analysis : String
  final_response : String
deriving Repr, DecidableEq

/-- One element of a list-shaped oracle return value.  In Python each element
is either a dict (modelled as an association list of string keys to string
values, the shape on which `''.join` succeeds) or a non-dict value, kept as
its `str()` representation. -/
inductive ContentPart where
  | dict (fields : List (String × String))
  | nonDict (strRepr : String)
deriving Repr, DecidableEq

/-- The value of `response.content` returned by `llm.invoke`: a plain string,
a list of typed parts, or any other Python value kept as its `str()`
representation. -/
inductive OracleContent where
  | str (s : String)
  | parts (ps : List ContentPart)
  | other (strRepr : String)
deriving Repr, DecidableEq

/-- `part.get('text', '') if isinstance(part, dict) else str(part)`
(src/api/index.py lines 56 and 92). -/
def partText : ContentPart → String
  | .dict fields => (fields.lookup "text").getD ""
  | .nonDict r => r

/-- The output normalization performed identically by both nodes
(src/api/index.py lines 54-57 and 90-93): a list is joined over `partText`,
and the final `str(...)` coerces any non-string, non-list value to its
string representation (it is the identity on strings). -/
def normalizeContent : OracleContent → String
  | .str s => s
  | .parts ps => String.join (ps.map partText)
  | .other r => r

/-- One element of a multimodal `HumanMessage` content list
(src/api/index.py lines 46-49). -/
inductive MessagePart where
  | text (s : String)
  | image_url (url : String)
deriving Repr, DecidableEq

/-- The content of a `HumanMessage`: a plain string (consultant) or a list
of typed parts (inspector). -/
inductive MessageContent where
  | text (s : String)
  | multimodal (ps : List MessagePart)
deriving Repr, DecidableEq

/-- A `HumanMessage` as constructed by the two nodes. -/
structure HumanMessage where
  content : MessageContent
deriving Repr, DecidableEq

/-- The generation oracle: `llm.invoke(messages)` either returns content or
raises an exception, modelled by `Except` with the exception's string
representation as the error. -/
def Oracle : Type := List HumanMessage → Except String OracleContent

/-- The fixed inspector instruction (src/api/index.py lines 34-43),
including the exact leading/trailing whitespace of the triple-quoted
Python string. -/
def inspectorPrompt : String :=
  "\n    Analyze this image strictly for construction and structural engineering details. \n    List the following if visible:\n    1. Material types (Wood, Concrete, Steel, Drywall).\n    2. Structural members (Beams, Columns, Joists, Headers).\n    3. Signs of stress (Cracks, sagging, water damage).\n    4. Context (Interior, Exterior, Foundation, Roof).\n    \n    Be purely descriptive. Do not give advice yet.\n    "

/-- The multimodal message built by `node_inspector`
(src/api/index.py lines 45-50): the fixed prompt plus the image embedded as
a `data:image/jpeg;base64,` data URL. -/
def inspectorMessage (state : GraphState) : HumanMessage :=
  { content := .multimodal
      [ .text inspectorPrompt,
        .image_url ("data:image/jpeg;base64," ++ state.image_data) ] }

/-- The consultant f-string (src/api/index.py lines 67-85) up to
`{analysis}`. -/
def consultantPromptPre : String :=
  "\n    You are a Lead Engineer at \x27ProStruct Engineering\x27. \n    \n    CONTEXT:\n    - We specialize in Structural Permits, Calculations, and Soft-Story Retrofits.\n    - We operate in CA, WA, OR.\n    - We value: Speed (2-3 week turnaround), Accuracy, and Permit Success.\n    \n    INPUT DATA:\n    - Visual Inspection Report: "

/-- The consultant f-string between `{analysis}` and `{user_q}` (including
the opening quote around the question). -/
def consultantPromptMid : String :=
  "\n    - User Question: \""

/-- The consultant f-string after `{user_q}` (starting with the closing
quote around the question). -/
def consultantPromptPost : String :=
  "\"\n    \n    INSTRUCTIONS:\n    1. Answer the user\x27s question directly using the Visual Inspection Report.\n    2. Explain *why* the visual details matter (e.g., \"Since I see a header beam...\").\n    3. Keep a professional but helpful tone.\n    4. MANDATORY DISCLAIMER: Always mention that this is a preliminary AI analysis and they need a site visit for a legal permit.\n    5. CALL TO ACTION: Ask if they want a \"Free Quote\" for a site visit.\n    "

/-- `prompt_content` as assembled by the f-string in `node_consultant`
(src/api/index.py lines 67-85). -/
def consultantPromptContent (analysis user_q : String) : String :=
  consultantPromptPre ++ analysis ++ consultantPromptMid ++ user_q ++ consultantPromptPost

/-- The plain-text message built by `node_consultant`
(src/api/index.py line 87). -/
def consultantMessage (state : GraphState) : HumanMessage :=
  { content := .text (consultantPromptContent state.visual_analysis state.user_prompt) }

/-- A LangGraph node's return value: a partial state update, one optional
field per `GraphState` key (`none` = key absent from the returned dict). -/
structure StateUpdate where
  image_data : Option String
  user_prompt : Option String
  visual_analysis : Option String
  final_response : Option String
deriving Repr, DecidableEq

/-- LangGraph merges a node's returned dict into the state: present keys
overwrite, absent keys are kept. -/
def applyUpdate (s : GraphState) (u : StateUpdate) : GraphState :=
  { image_data := u.image_data.getD s.image_data,
    user_prompt := u.user_prompt.getD s.user_prompt,
    visual_analysis := u.visual_analysis.getD s.visual_analysis,
    final_response := u.final_response.getD s.final_response }

/-- Node 1 (src/api/index.py lines 30-57): sends `[inspectorMessage state]`
to the oracle and returns `{"visual_analysis": str(normalized)}`; an oracle
exception propagates. -/
def node_inspector (oracle : Oracle) (state : GraphState) : Except String StateUpdate :=
  match oracle [inspectorMessage state] with
  | .error e => .error e
  | .ok content =>
      .ok { image_data := none, user_prompt := none,
            visual_analysis := some (normalizeContent content),
            final_response := none }

/-- Node 2 (src/api/index.py lines 59-93): sends `[consultantMessage state]`
to the oracle and returns `{"final_response": str(normalized)}`; an oracle
exception propagates. -/
def node_consultant (oracle : Oracle) (state : GraphState) : Except String StateUpdate :=
  match oracle [consultantMessage state] with
  | .error e => .error e
  | .ok content =>
      .ok { image_data := none, user_prompt := none,
            visual_analysis := none,
            final_response := some (normalizeContent content) }

/-- `app_graph.invoke` for the compiled linear graph
(src/api/index.py lines 96-106): inspector, then consultant, then END; an
exception in either node aborts the run. -/
def app_graph_invoke (oracle : Oracle) (inputs : GraphState) : Except String GraphState :=
  match node_inspector oracle inputs with
  | .error e => .error e
  | .ok u1 =>
      let s1 := applyUpdate inputs u1
      match node_consultant oracle s1 with
      | .error e => .error e
      | .ok u2 => .ok (applyUpdate s1 u2)

/-- The list of oracle calls (message lists passed to `llm.invoke`) made
during one graph invocation, mirroring the short-circuiting control flow of
`app_graph_invoke`: if the inspector's call raises, the consultant's call
is never made. -/
def pipelineCalls (oracle : Oracle) (inputs : GraphState) : List (List HumanMessage) :=
  match node_inspector oracle inputs with
  | .error _ => [[inspectorMessage inputs]]
  | .ok u1 =>
      let s1 := applyUpdate inputs u1
      [[inspectorMessage inputs], [consultantMessage s1]]

/-- The `AnalyzeRequest` pydantic model (src/api/index.py lines 121-123). -/
structure AnalyzeRequest where
  image_base64 : String
  question : String
deriving Repr, DecidableEq

/-- The JSON body returned on success (src/api/index.py lines 139-142). -/
structure AnalyzeResponseBody where
  analysis : String
  response : String
deriving Repr, DecidableEq

/-- The boundary outcome: HTTP 200 with a body, or an `HTTPException` with
a status code and detail string. -/
inductive ApiResult where
  | ok (body : AnalyzeResponseBody)
  | httpError (status : Nat) (detail : String)
deriving Repr, DecidableEq

/-- The initial state dict built by the handler
(src/api/index.py lines 129-134). -/
def initialState (request : AnalyzeRequest) : GraphState :=
  { image_data := request.image_base64,
    user_prompt := request.question,
    visual_analysis := "",
    final_response := "" }

/-- The `POST /analyze` handler (src/api/index.py lines 125-145): build the
initial state, invoke the graph, return `{analysis, response}` on success;
any exception becomes `HTTPException(status_code=500, detail=str(e))`. -/
def analyze_project (oracle : Oracle) (request : AnalyzeRequest) : ApiResult :=
  match app_graph_invoke oracle (initialState request) with
  | .ok result =>
      .ok { analysis := result.visual_analysis, response := result.final_response }
  | .error e => .httpError 500 e

/-- The pipeline state after Stage 1 has written `visual_analysis := a`
into the fresh state built from `request`; this is what `applyUpdate`
produces from the inspector's update. -/
def stage1State (request : AnalyzeRequest) (a : String) : GraphState :=
  { image_data := request.image_base64, user_prompt := request.question,
    visual_analysis := a, final_response := "" }

/-- A deterministic oracle for concrete instantiations: fixed text `A` for
the inspector's multimodal call, fixed text `B` for any plain-text call. -/
def fixedOracle (A B : String) : Oracle := fun msgs =>
  match msgs with
  | [{ content := MessageContent.multimodal _ }] => .ok (.str A)
  | _ => .ok (.str B)

/-- An oracle that always raises, for concrete instantiations. -/
def failingOracle (e : String) : Oracle := fun _ => .error e

/-- An oracle whose inspector (multimodal) call succeeds with text `A` and
whose consultant (plain-text) call raises `e`, for concrete
instantiations. -/
def stage2FailingOracle (A e : String) : Oracle := fun msgs =>
  match msgs with
  | [{ content := MessageContent.multimodal _ }] => .ok (.str A)
  | _ => .error e

/-- C1: for any request, if the oracle deterministically returns the fixed
text `A` for the Stage 1 call and the fixed text `B` for the Stage 2 call,
`analyze_project` returns HTTP 200 with body exactly
`{analysis := A, response := B}`. -/
theorem analyze_fixed_oracle (request : AnalyzeRequest) (oracle : Oracle) (A B : String)
    (h1 : oracle [inspectorMessage (initialState request)] = .ok (.str A))
    (h2 : oracle [consultantMessage (stage1State request A)] = .ok (.str B)) :
    analyze_project oracle request = .ok { analysis := A, response := B } := by
  have h1' : oracle [inspectorMessage
      ⟨request.image_base64, request.question, "", ""⟩] = .ok (.str A) := h1
  have h2' : oracle [consultantMessage
      ⟨request.image_base64, request.question, A, ""⟩] = .ok (.str B) := h2
  simp only [analyze_project, app_graph_invoke, node_inspector, node_consultant,
    initialState, applyUpdate, normalizeContent, Option.getD_some, Option.getD_none,
    h1', h2']

/-- C1 witness: a concrete request and a concrete deterministic oracle. -/
theorem analyze_fixed_oracle_witness :
    analyze_project (fixedOracle "A" "B") { image_base64 := "img", question := "q" } =
      .ok { analysis := "A", response := "B" } :=
  analyze_fixed_oracle { image_base64 := "img", question := "q" }
    (fixedOracle "A" "B") "A" "B" rfl rfl

/-- C2: the normalization used by both stages returns a plain string
unchanged; for a list it concatenates the textual content of the parts in
order, a part with no text (such as an image part) contributing nothing,
so that the two text parts `"a"`, `"b"` normalize to `"ab"`; and a
non-string, non-list oracle return is coerced to its string
representation. -/
theorem normalizeContent_spec :
    (∀ s : String, normalizeContent (.str s) = s) ∧
    (∀ ps : List ContentPart, normalizeContent (.parts ps) = String.join (ps.map partText)) ∧
    (∀ fields : List (String × String), fields.lookup "text" = none →
      partText (.dict fields) = "") ∧
    normalizeContent (.parts
      [ .dict [("type", "text"), ("text", "a")],
        .dict [("type", "text"), ("text", "b")] ]) = "ab" ∧
    (∀ r : String, normalizeContent (.other r) = r) := by
  refine ⟨fun s => rfl, fun ps => rfl, fun fields h => ?_, by decide, fun r => rfl⟩
  simp [partText, h]

/-- C2 witness: a concrete non-text part (an image part with no `text`
key) is discarded, i.e. contributes the empty string. -/
theorem normalizeContent_spec_witness :
    partText (.dict [("type", "image_url")]) = "" :=
  normalizeContent_spec.2.2.1 [("type", "image_url")] rfl

/-- C3: the prompt Stage 2 sends to the oracle is a plain-text message
containing the exact Stage 1 output (`visual_analysis`) and the exact user
question as contiguous substrings. -/
theorem consultant_prompt_embeds (state : GraphState) :
    (consultantMessage state).content =
      .text (consultantPromptContent state.visual_analysis state.user_prompt) ∧
    state.visual_analysis.data <:+:
      (consultantPromptContent state.visual_analysis state.user_prompt).data ∧
    state.user_prompt.data <:+:
      (consultantPromptContent state.visual_analysis state.user_prompt).data := by
  refine ⟨rfl, ?_, ?_⟩
  · exact ⟨consultantPromptPre.data,
      (consultantPromptMid ++ state.user_prompt ++ consultantPromptPost).data, by
        simp [consultantPromptContent, String.data_append]⟩
  · exact ⟨(consultantPromptPre ++ state.visual_analysis ++ consultantPromptMid).data,
      consultantPromptPost.data, by
        simp [consultantPromptContent, String.data_append]⟩

/-- C4: if the oracle call made by Stage 1 raises, the boundary returns
HTTP 500 with that error, and the consultant's oracle call is never made:
the call trace consists of the inspector's call alone. -/
theorem stage1_failure_aborts (oracle : Oracle) (request : AnalyzeRequest) (e : String)
    (h : oracle [inspectorMessage (initialState request)] = .error e) :
    analyze_project oracle request = .httpError 500 e ∧
    pipelineCalls oracle (initialState request) = [[inspectorMessage (initialState request)]] := by
  constructor
  · simp only [analyze_project, app_graph_invoke, node_inspector, h]
  · simp only [pipelineCalls, node_inspector, h]

/-- C4 witness: a concrete request with an oracle that always raises. -/
theorem stage1_failure_aborts_witness :
    analyze_project (failingOracle "boom") { image_base64 := "img", question := "q" } =
      .httpError 500 "boom" ∧
    pipelineCalls (failingOracle "boom") (initialState { image_base64 := "img", question := "q" }) =
      [[inspectorMessage (initialState { image_base64 := "img", question := "q" })]] :=
  stage1_failure_aborts (failingOracle "boom") { image_base64 := "img", question := "q" }
    "boom" rfl

/-- C5: if Stage 1 succeeds and the oracle call made by Stage 2 raises,
the boundary returns HTTP 500 carrying only the error detail; in
particular no success body (hence no `final_response` data) is returned. -/
theorem stage2_failure_500 (oracle : Oracle) (request : AnalyzeRequest)
    (c : OracleContent) (e : String)
    (h1 : oracle [inspectorMessage (initialState request)] = .ok c)
    (h2 : oracle [consultantMessage (stage1State request (normalizeContent c))] = .error e) :
    analyze_project oracle request = .httpError 500 e ∧
    ∀ body : AnalyzeResponseBody, analyze_project oracle request ≠ .ok body := by
  have h1' : oracle [inspectorMessage
      ⟨request.image_base64, request.question, "", ""⟩] = .ok c := h1
  have h2' : oracle [consultantMessage
      ⟨request.image_base64, request.question, normalizeContent c, ""⟩] = .error e := h2
  have hmain : analyze_project oracle request = .httpError 500 e := by
    simp only [analyze_project, app_graph_invoke, node_inspector, node_consultant,
      initialState, applyUpdate, Option.getD_some, Option.getD_none, h1', h2']
  exact ⟨hmain, fun body hbody => by rw [hmain] at hbody; exact ApiResult.noConfusion hbody⟩

/-- C5 witness: a concrete request with an oracle failing only on the
consultant's plain-text call. -/
theorem stage2_failure_500_witness :
    analyze_project (stage2FailingOracle "A" "crash") { image_base64 := "img", question := "q" } =
      .httpError 500 "crash" ∧
    ∀ body : AnalyzeResponseBody,
      analyze_project (stage2FailingOracle "A" "crash") { image_base64 := "img", question := "q" } ≠
        .ok body :=
  stage2_failure_500 (stage2FailingOracle "A" "crash") { image_base64 := "img", question := "q" }
    (.str "A") "crash" rfl rfl

/-- C6: any exception raised inside the graph invocation is caught by the
boundary and surfaced as HTTP 500 whose detail equals the exception's
string representation. -/
theorem pipeline_exception_500 (oracle : Oracle) (request : AnalyzeRequest) (e : String)
    (h : app_graph_invoke oracle (initialState request) = .error e) :
    analyze_project oracle request = .httpError 500 e := by
  simp only [analyze_project, h]

/-- C6 witness: a concrete request with an oracle that always raises. -/
theorem pipeline_exception_500_witness :
    analyze_project (failingOracle "oops") { image_base64 := "", question := "hi" } =
      .httpError 500 "oops" :=
  pipeline_exception_500 (failingOracle "oops") { image_base64 := "", question := "hi" }
    "oops" rfl

/-- Whenever the inspector node succeeds, its returned update writes
exactly the `visual_analysis` key. -/
theorem node_inspector_ok_shape (oracle : Oracle) (state : GraphState) (u : StateUpdate)
    (h : node_inspector oracle state = .ok u) :
    ∃ a, u = { image_data := none, user_prompt := none,
               visual_analysis := some a, final_response := none } := by
  unfold node_inspector at h
  cases hc : oracle [inspectorMessage state] with
  | error e => rw [hc] at h; exact Except.noConfusion h
  | ok c =>
    rw [hc] at h
    injection h with h
    exact ⟨normalizeContent c, h.symm⟩

/-- Whenever the consultant node succeeds, its returned update writes
exactly the `final_response` key. -/
theorem node_consultant_ok_shape (oracle : Oracle) (state : GraphState) (u : StateUpdate)
    (h : node_consultant oracle state = .ok u) :
    ∃ r, u = { image_data := none, user_prompt := none,
               visual_analysis := none, final_response := some r } := by
  unfold node_consultant at h
  cases hc : oracle [consultantMessage state] with
  | error e => rw [hc] at h; exact Except.noConfusion h
  | ok c =>
    rw [hc] at h
    injection h with h
    exact ⟨normalizeContent c, h.symm⟩

/-- C7: Stage 1's update writes only `visual_analysis`, Stage 2's update
writes only `final_response`, and a full successful run leaves
`image_data` and `user_prompt` exactly as they were at entry; since the
two stages write disjoint single fields, no field of the state is mutated
more than once across a pipeline run. -/
theorem pipeline_frame (oracle : Oracle) (inputs : GraphState) :
    (∀ u, node_inspector oracle inputs = .ok u →
        u.image_data = none ∧ u.user_prompt = none ∧ u.final_response = none ∧
        ∃ a, u.visual_analysis = some a) ∧
    (∀ u, node_consultant oracle inputs = .ok u →
        u.image_data = none ∧ u.user_prompt = none ∧ u.visual_analysis = none ∧
        ∃ r, u.final_response = some r) ∧
    (∀ final, app_graph_invoke oracle inputs = .ok final →
        final.image_data = inputs.image_data ∧ final.user_prompt = inputs.user_prompt) := by
  refine ⟨?_, ?_, ?_⟩
  · intro u hu
    obtain ⟨a, rfl⟩ := node_inspector_ok_shape oracle inputs u hu
    exact ⟨rfl, rfl, rfl, a, rfl⟩
  · intro u hu
    obtain ⟨r, rfl⟩ := node_consultant_ok_shape oracle inputs u hu
    exact ⟨rfl, rfl, rfl, r, rfl⟩
  · intro final hfinal
    unfold app_graph_invoke at hfinal
    cases h1 : node_inspector oracle inputs with
    | error e => rw [h1] at hfinal; exact Except.noConfusion hfinal
    | ok u1 =>
      rw [h1] at hfinal
      dsimp only at hfinal
      obtain ⟨a, rfl⟩ := node_inspector_ok_shape oracle inputs u1 h1
      cases h2 : node_consultant oracle
          (applyUpdate inputs ⟨none, none, some a, none⟩) with
      | error e => rw [h2] at hfinal; exact Except.noConfusion hfinal
      | ok u2 =>
        rw [h2] at hfinal
        injection hfinal with hfinal
        obtain ⟨r, rfl⟩ := node_consultant_ok_shape oracle _ u2 h2
        subst hfinal
        exact ⟨rfl, rfl⟩

/-- C7 witness: a concrete run in which the inspector's update is exactly
`{visual_analysis := some "A"}`, with the other three keys absent. -/
theorem pipeline_frame_witness :
    node_inspector (fixedOracle "A" "B") ⟨"img", "q", "", ""⟩ =
      Except.ok ⟨none, none, some "A", none⟩ ∧
    (⟨none, none, some "A", none⟩ : StateUpdate).image_data = none ∧
    (⟨none, none, some "A", none⟩ : StateUpdate).user_prompt = none ∧
    (⟨none, none, some "A", none⟩ : StateUpdate).final_response = none :=
  let h := (pipeline_frame (fixedOracle "A" "B") ⟨"img", "q", "", ""⟩).1
    ⟨none, none, some "A", none⟩ rfl
  ⟨rfl, h.1, h.2.1, h.2.2.1⟩

/-- C8: Stage 1 does not depend on `user_prompt`: two states agreeing on
`image_data` yield the same inspector message and the same inspector
result, whatever their `user_prompt` (and other) fields are. -/
theorem inspector_ignores_user_prompt (oracle : Oracle) (s t : GraphState)
    (h : s.image_data = t.image_data) :
    inspectorMessage s = inspectorMessage t ∧
    node_inspector oracle s = node_inspector oracle t := by
  have hm : inspectorMessage s = inspectorMessage t := by
    unfold inspectorMessage; rw [h]
  exact ⟨hm, by unfold node_inspector; rw [hm]⟩

/-- C8 witness: two concrete states sharing `image_data` but with
different `user_prompt` values. -/
theorem inspector_ignores_user_prompt_witness :
    inspectorMessage ⟨"i", "q1", "", ""⟩ = inspectorMessage ⟨"i", "q2", "x", "y"⟩ ∧
    node_inspector (fixedOracle "A" "B") ⟨"i", "q1", "", ""⟩ =
      node_inspector (fixedOracle "A" "B") ⟨"i", "q2", "x", "y"⟩ :=
  inspector_ignores_user_prompt (fixedOracle "A" "B")
    ⟨"i", "q1", "", ""⟩ ⟨"i", "q2", "x", "y"⟩ rfl

/-- The request with both fields empty. -/
def emptyRequest : AnalyzeRequest := { image_base64 := "", question := "" }

/-- C9: with `question = ""` and `image_base64 = ""` the pipeline still
executes both stages — both oracle calls appear in the trace, with no
precondition check — and the handler returns the normalized oracle text of
each stage. -/
theorem empty_request_runs (oracle : Oracle) (c1 c2 : OracleContent)
    (h1 : oracle [inspectorMessage (initialState emptyRequest)] = .ok c1)
    (h2 : oracle [consultantMessage (stage1State emptyRequest (normalizeContent c1))] = .ok c2) :
    analyze_project oracle emptyRequest =
      .ok { analysis := normalizeContent c1, response := normalizeContent c2 } ∧
    pipelineCalls oracle (initialState emptyRequest) =
      [[inspectorMessage (initialState emptyRequest)],
       [consultantMessage (stage1State emptyRequest (normalizeContent c1))]] := by
  have h1' : oracle [inspectorMessage ⟨"", "", "", ""⟩] = .ok c1 := h1
  have h2' : oracle [consultantMessage ⟨"", "", normalizeContent c1, ""⟩] = .ok c2 := h2
  constructor
  · simp only [analyze_project, app_graph_invoke, node_inspector, node_consultant,
      initialState, emptyRequest, applyUpdate, Option.getD_some, Option.getD_none, h1', h2']
  · simp only [pipelineCalls, node_inspector, initialState, emptyRequest, stage1State,
      applyUpdate, Option.getD_some, Option.getD_none, h1']

/-- C9 witness: the empty request with a concrete deterministic oracle. -/
theorem empty_request_runs_witness :
    analyze_project (fixedOracle "A" "B") emptyRequest =
      .ok { analysis := normalizeContent (.str "A"), response := normalizeContent (.str "B") } ∧
    pipelineCalls (fixedOracle "A" "B") (initialState emptyRequest) =
      [[inspectorMessage (initialState emptyRequest)],
       [consultantMessage (stage1State emptyRequest (normalizeContent (.str "A")))]] :=
  empty_request_runs (fixedOracle "A" "B") (.str "A") (.str "B") rfl rfl

/-- C10: Stage 1 embeds the image payload into its oracle message as a
data URL with the fixed media type `image/jpeg`, i.e. the URL is
`"data:image/jpeg;base64," ++ image_data`, whatever the payload is. -/
theorem inspector_builds_jpeg_data_url (state : GraphState) :
    (inspectorMessage state).content =
      .multimodal [ .text inspectorPrompt,
        .image_url ("data:image/jpeg;base64," ++ state.image_data) ] ∧
    "data:image/jpeg;base64,".data <+:
      ("data:image/jpeg;base64," ++ state.image_data).data :=
  ⟨rfl, ⟨state.image_data.data, by simp [String.data_append]⟩⟩

end ProStruct
